import Mathlib

/-!
Verification of the stock-ledger core of the Pack Split Tracker
(`src/app1.py`): the split-policy derivation, `apply_opening` and
`undo_last_entry`, over a shallow embedding of the relational state.

Embedding notes, traceable to the source:
- `products`, `stock`, `open_log` model the three tables created by
  `init_db`.  The stock store is modelled as a total function from barcode
  to snapshot, defaulting rows to `(0, 0, 0)`; this matches the lazy
  zero-row initialization performed by `ensure_stock_row` (so
  `ensure_stock_row` itself is the identity in the model).
- `open_log.id` is the `bigserial` primary key; `next_id` is the sequence
  counter.  The `check (boxes_opened >= 0)` constraint of `open_log`
  makes the insert in `apply_opening` fail for negative `boxes_opened`;
  that failure is modelled as `LedgerError.invalidInput`.
- Machine integers of the `int` columns are modelled as `Int` (Python
  ints are unbounded; the Postgres columns never overflow in scope).
- The manual counts `singles_made` / `sixpk_made` passed to
  `apply_opening` are `Option Int`: Python `int(x or 0)` maps `None`
  (and `0`) to `0`, which is `Option.getD 0` composed with the identity.
-/

namespace StockTracker

/-- A row of `public.products` (see `init_db` and `upsert_product`). -/
structure Product where
  barcode : String
  description : String
  pack_size : Option Int
  split_mode : String
  auto_singles_per_box : Int
  auto_sixpk_per_box : Int
  deriving DecidableEq

/-- A row of `public.stock` (the `updated_at` timestamp column is out of
scope and omitted). -/
structure StockSnapshot where
  closed_boxes : Int
  singles : Int
  sixpk : Int
  deriving DecidableEq

/-- A row of `public.open_log`.  `log_date` is an opaque calendar-date
token (its value never influences the ledger logic). -/
structure OpeningEvent where
  id : Nat
  log_date : Nat
  barcode : String
  boxes_opened : Int
  singles_made : Int
  sixpk_made : Int
  note : String
  deriving DecidableEq

/-- The persistent database state: the three tables plus the
`open_log.id` bigserial counter. -/
structure DB where
  products : List Product
  stock : String → StockSnapshot
  open_log : List OpeningEvent
  next_id : Nat

/-- Error kinds surfaced by the ledger operations.  `productNotFound`
models the `ValueError` raised for a missing barcode; `invalidInput`
models the `check (boxes_opened >= 0)` constraint violation on the
`open_log` insert; `invalidPolicy` exists only in the specification's
error taxonomy and is produced by no code path. -/
inductive LedgerError where
  | productNotFound
  | invalidInput
  | invalidPolicy
  deriving DecidableEq

/-- `select * from public.products where barcode=%s` (first match on the
primary key). -/
def findProduct (db : DB) (barcode : String) : Option Product :=
  db.products.find? (fun p => p.barcode = barcode)

/-- `get_stock`: raises for an unknown barcode, otherwise reads the
(lazily zero-initialized) stock row. -/
def get_stock (db : DB) (barcode : String) : Except LedgerError StockSnapshot :=
  if (findProduct db barcode).isSome then Except.ok (db.stock barcode)
  else Except.error LedgerError.productNotFound

/-- `set_stock`: raises for an unknown barcode, otherwise overwrites the
stock row for that barcode. -/
def set_stock (db : DB) (barcode : String) (closed_boxes singles sixpk : Int) :
    Except LedgerError DB :=
  if (findProduct db barcode).isSome then
    Except.ok { db with
      stock := fun b => if b = barcode then ⟨closed_boxes, singles, sixpk⟩ else db.stock b }
  else Except.error LedgerError.productNotFound

/-- The `insert into public.open_log` statement of `apply_opening`,
including the table's `check (boxes_opened >= 0)` constraint: the insert
fails (and, being its own transaction in `execute`, leaves the log
unchanged) when `boxes_opened` is negative. -/
def appendOpeningEvent (db : DB) (log_date : Nat) (barcode : String)
    (boxes_opened singles_made sixpk_made : Int) (note : String) :
    Except LedgerError DB :=
  if boxes_opened < 0 then Except.error LedgerError.invalidInput
  else Except.ok { db with
    open_log := db.open_log ++
      [⟨db.next_id, log_date, barcode, boxes_opened, singles_made, sixpk_made, note⟩],
    next_id := db.next_id + 1 }

/-- The split-policy branch shared verbatim by `apply_opening` (on the
supplied manual counts) and `undo_last_entry` (on the stored event
counts): returns `(derived_singles, derived_sixpk, singles_to_store,
sixpk_to_store)`.  The trailing `else` covers `"NONE"` and every other
policy string. -/
def deriveSplit (split_mode : String) (auto_singles_per_box auto_sixpk_per_box : Int)
    (boxes_opened : Int) (singles_made sixpk_made : Option Int) :
    Int × Int × Int × Int :=
  if split_mode = "AUTO" then
    (boxes_opened * auto_singles_per_box, boxes_opened * auto_sixpk_per_box, 0, 0)
  else if split_mode = "MANUAL" then
    (singles_made.getD 0, sixpk_made.getD 0, singles_made.getD 0, sixpk_made.getD 0)
  else
    (0, 0, 0, 0)

/-- The tuple returned by a successful `apply_opening`. -/
structure ApplyResult where
  description : String
  new_closed : Int
  new_singles : Int
  new_sixpk : Int
  derived_singles : Int
  derived_sixpk : Int
  deriving DecidableEq

/-- The dictionary returned by a successful `undo_last_entry`. -/
structure UndoResult where
  barcode : String
  description : String
  new_closed_boxes : Int
  deriving DecidableEq

/-- `apply_opening(log_date, barcode, boxes_opened, singles_made,
sixpk_made, note)`: load product, read stock, derive the split, append
the log row, overwrite the snapshot, return the after-values.  On an
error the state reached so far is returned unchanged (each `execute`
commits or rolls back on its own). -/
def apply_opening (db : DB) (log_date : Nat) (barcode : String) (boxes_opened : Int)
    (singles_made sixpk_made : Option Int) (note : String) :
    Except LedgerError ApplyResult × DB :=
  match findProduct db barcode with
  | none => (Except.error LedgerError.productNotFound, db)
  | some prod =>
    match get_stock db barcode with
    | Except.error e => (Except.error e, db)
    | Except.ok stk =>
      let d := deriveSplit prod.split_mode prod.auto_singles_per_box
        prod.auto_sixpk_per_box boxes_opened singles_made sixpk_made
      let new_closed := stk.closed_boxes - boxes_opened
      let new_singles := stk.singles + d.1
      let new_sixpk := stk.sixpk + d.2.1
      match appendOpeningEvent db log_date barcode boxes_opened d.2.2.1 d.2.2.2 note with
      | Except.error e => (Except.error e, db)
      | Except.ok db1 =>
        match set_stock db1 barcode new_closed new_singles new_sixpk with
        | Except.error e => (Except.error e, db1)
        | Except.ok db2 =>
          (Except.ok ⟨prod.description, new_closed, new_singles, new_sixpk, d.1, d.2.1⟩, db2)

/-- `select * from public.open_log order by id desc limit 1`: the row
with the greatest `id`, if any. -/
def laterEvent (acc : Option OpeningEvent) (e : OpeningEvent) : Option OpeningEvent :=
  match acc with
  | none => some e
  | some m => if m.id < e.id then some e else some m

/-- The most recent opening event, by descending `id`. -/
def mostRecent (l : List OpeningEvent) : Option OpeningEvent :=
  l.foldl laterEvent none

/-- `undo_last_entry()`: read the globally most recent log row; if none,
or if its product has been deleted, return `(False, None)` without
mutating anything; otherwise re-derive the split from the product's
current policy and the event's stored counts, delete the row and write
the reversed snapshot. -/
def undo_last_entry (db : DB) :
    Except LedgerError (Bool × Option UndoResult) × DB :=
  match mostRecent db.open_log with
  | none => (Except.ok (false, none), db)
  | some last =>
    match findProduct db last.barcode with
    | none => (Except.ok (false, none), db)
    | some prod =>
      match get_stock db last.barcode with
      | Except.error e => (Except.error e, db)
      | Except.ok stk =>
        let d := deriveSplit prod.split_mode prod.auto_singles_per_box
          prod.auto_sixpk_per_box last.boxes_opened
          (some last.singles_made) (some last.sixpk_made)
        let new_closed := stk.closed_boxes + last.boxes_opened
        let new_singles := stk.singles - d.1
        let new_sixpk := stk.sixpk - d.2.1
        let db1 := { db with open_log := db.open_log.filter (fun e => e.id != last.id) }
        match set_stock db1 last.barcode new_closed new_singles new_sixpk with
        | Except.error e => (Except.error e, db1)
        | Except.ok db2 =>
          (Except.ok (true, some ⟨last.barcode, prod.description, new_closed⟩), db2)

/-- Well-formedness maintained by the bigserial sequence: every logged
event id is below the counter. -/
def WF (db : DB) : Prop := ∀ e ∈ db.open_log, e.id < db.next_id

theorem findProduct_update_log (db : DB) (l : List OpeningEvent) (k : Nat) (bc : String) :
    findProduct { db with open_log := l, next_id := k } bc = findProduct db bc := rfl

theorem findProduct_update_all (db : DB) (f : String → StockSnapshot)
    (l : List OpeningEvent) (k : Nat) (bc : String) :
    findProduct { db with stock := f, open_log := l, next_id := k } bc = findProduct db bc := rfl

/-- Closed form of a successful `apply_opening`: with the product present
and a non-negative `boxes_opened`, the call returns the after-values and
the state gains exactly one log row (id `next_id`) and the overwritten
snapshot. -/
theorem apply_opening_ok (db : DB) (d : Nat) (bc : String) (n : Int)
    (ms mk : Option Int) (nt : String) (prod : Product) (d0 : Int × Int × Int × Int)
    (hfind : findProduct db bc = some prod) (hn : 0 ≤ n)
    (hd : deriveSplit prod.split_mode prod.auto_singles_per_box
      prod.auto_sixpk_per_box n ms mk = d0) :
    apply_opening db d bc n ms mk nt =
      (Except.ok ⟨prod.description,
        (db.stock bc).closed_boxes - n,
        (db.stock bc).singles + d0.1,
        (db.stock bc).sixpk + d0.2.1,
        d0.1, d0.2.1⟩,
       { db with
         open_log := db.open_log ++ [⟨db.next_id, d, bc, n, d0.2.2.1, d0.2.2.2, nt⟩],
         next_id := db.next_id + 1,
         stock := fun b => if b = bc then
           ⟨(db.stock bc).closed_boxes - n,
            (db.stock bc).singles + d0.1,
            (db.stock bc).sixpk + d0.2.1⟩ else db.stock b }) := by
  have hns : ¬ n < 0 := not_lt.mpr hn
  have hfind2 : db.products.find? (fun p => p.barcode = bc) = some prod := hfind
  simp [apply_opening, get_stock, set_stock, appendOpeningEvent, findProduct, hfind2, hns, hd]

theorem foldl_laterEvent_mem (l : List OpeningEvent) :
    ∀ (acc : Option OpeningEvent) (m : OpeningEvent),
      l.foldl laterEvent acc = some m → m ∈ l ∨ acc = some m := by
  induction l with
  | nil => exact fun acc m h => Or.inr h
  | cons e t ih =>
    intro acc m h
    rcases ih (laterEvent acc e) m h with hm | hm
    · exact Or.inl (List.mem_cons_of_mem e hm)
    · cases acc with
      | none =>
        simp only [laterEvent, Option.some.injEq] at hm
        exact Or.inl (hm ▸ List.mem_cons_self e t)
      | some m0 =>
        by_cases hlt : m0.id < e.id
        · simp only [laterEvent, hlt, if_true, Option.some.injEq] at hm
          exact Or.inl (hm ▸ List.mem_cons_self e t)
        · simp only [laterEvent, hlt, if_false, Option.some.injEq] at hm
          exact Or.inr (by rw [hm])

/-- If a freshly appended row's id exceeds every existing id, the
`order by id desc limit 1` read returns exactly that row. -/
theorem mostRecent_append (l : List OpeningEvent) (x : OpeningEvent)
    (h : ∀ e ∈ l, e.id < x.id) : mostRecent (l ++ [x]) = some x := by
  unfold mostRecent
  rw [List.foldl_append]
  cases hl : l.foldl laterEvent none with
  | none => simp [laterEvent]
  | some m =>
    rcases foldl_laterEvent_mem l none m hl with hm | hm
    · simp [laterEvent, h m hm]
    · exact Option.noConfusion hm

/-- Deleting a freshly appended row whose id exceeds every existing id
removes exactly that row. -/
theorem filter_append_ne (l : List OpeningEvent) (x : OpeningEvent)
    (h : ∀ e ∈ l, e.id < x.id) :
    (l ++ [x]).filter (fun e => e.id != x.id) = l := by
  rw [List.filter_append]
  have h1 : l.filter (fun e => e.id != x.id) = l := by
    apply List.filter_eq_self.mpr
    intro a ha
    simpa using Nat.ne_of_lt (h a ha)
  have h2 : [x].filter (fun e => e.id != x.id) = [] := by simp
  rw [h1, h2, List.append_nil]

/-- Re-deriving the split from the stored counts of an event produced by
the same policy and multipliers recovers the originally derived amounts
(the key fact behind undo-after-apply). -/
theorem deriveSplit_stored_cancel (mode : String) (a b n : Int) (ms mk : Option Int) :
    (deriveSplit mode a b n (some (deriveSplit mode a b n ms mk).2.2.1)
      (some (deriveSplit mode a b n ms mk).2.2.2)).1
        = (deriveSplit mode a b n ms mk).1 ∧
    (deriveSplit mode a b n (some (deriveSplit mode a b n ms mk).2.2.1)
      (some (deriveSplit mode a b n ms mk).2.2.2)).2.1
        = (deriveSplit mode a b n ms mk).2.1 := by
  unfold deriveSplit
  split_ifs <;> simp

/-- Outside the `MANUAL` branch the split derivation ignores the manual
counts entirely. -/
theorem deriveSplit_not_manual (mode : String) (a b n : Int)
    (ms mk ms2 mk2 : Option Int) (h : mode ≠ "MANUAL") :
    deriveSplit mode a b n ms mk = deriveSplit mode a b n ms2 mk2 := by
  unfold deriveSplit
  split_ifs <;> simp_all

/-- Closed form of a successful `undo_last_entry`: with a most recent row
present and its product still in the catalog, the call deletes that row
and writes the reversed snapshot. -/
theorem undo_last_entry_ok (db : DB) (last : OpeningEvent) (prod : Product)
    (u : Int × Int × Int × Int)
    (hmr : mostRecent db.open_log = some last)
    (hfind : findProduct db last.barcode = some prod)
    (hu : deriveSplit prod.split_mode prod.auto_singles_per_box prod.auto_sixpk_per_box
      last.boxes_opened (some last.singles_made) (some last.sixpk_made) = u) :
    undo_last_entry db =
      (Except.ok (true, some ⟨last.barcode, prod.description,
        (db.stock last.barcode).closed_boxes + last.boxes_opened⟩),
       { db with
         open_log := db.open_log.filter (fun e => e.id != last.id),
         stock := fun b => if b = last.barcode then
           ⟨(db.stock last.barcode).closed_boxes + last.boxes_opened,
            (db.stock last.barcode).singles - u.1,
            (db.stock last.barcode).sixpk - u.2.1⟩ else db.stock b }) := by
  have hfind2 : db.products.find? (fun p => p.barcode = last.barcode) = some prod := hfind
  simp [undo_last_entry, get_stock, set_stock, findProduct, hmr, hfind2, hu]

/-- Error case of `apply_opening` for negative `boxes_opened`: the
`open_log` insert's check constraint fires and the state is unchanged. -/
theorem apply_opening_neg (db : DB) (d : Nat) (bc : String) (n : Int)
    (ms mk : Option Int) (nt : String) (prod : Product)
    (hfind : findProduct db bc = some prod) (hneg : n < 0) :
    apply_opening db d bc n ms mk nt = (Except.error LedgerError.invalidInput, db) := by
  have hfind2 : db.products.find? (fun p => p.barcode = bc) = some prod := hfind
  simp [apply_opening, get_stock, appendOpeningEvent, findProduct, hfind2, hneg]

/-- Product fixture with the AUTO policy and multipliers (40, 0), as in
the specification's scenario for P1. -/
def prodAuto : Product := ⟨"P1", "Cola", none, "AUTO", 40, 0⟩

/-- Product fixture with the MANUAL policy, as in the specification's
scenario for P2. -/
def prodManual : Product := ⟨"P2", "Soda", some 24, "MANUAL", 0, 0⟩

/-- Product fixture with the NONE policy. -/
def prodNone : Product := ⟨"P3", "Chips", none, "NONE", 0, 0⟩

/-- Product fixture carrying an unrecognized (corrupt) split policy. -/
def prodCorrupt : Product := ⟨"PX", "Mystery", none, "SPLIT_WEIRD", 7, 3⟩

/-- Catalog with P1 only, stock (10, 0, 0), empty log. -/
def dbAuto : DB := ⟨[prodAuto], fun _ => ⟨10, 0, 0⟩, [], 1⟩

/-- Catalog with P2 only, stock (5, 10, 2), empty log. -/
def dbManual : DB := ⟨[prodManual], fun _ => ⟨5, 10, 2⟩, [], 1⟩

/-- Catalog with P3 only, stock (3, 4, 5), empty log. -/
def dbNone : DB := ⟨[prodNone], fun _ => ⟨3, 4, 5⟩, [], 1⟩

/-- Catalog with the corrupt-policy product only, stock (1, 1, 1). -/
def dbCorrupt : DB := ⟨[prodCorrupt], fun _ => ⟨1, 1, 1⟩, [], 1⟩

/-- A fresh ledger: no products, no events. -/
def dbEmpty : DB := ⟨[], fun _ => ⟨0, 0, 0⟩, [], 1⟩

/-- An event whose product has since been deleted from the catalog. -/
def ghostEvent : OpeningEvent := ⟨1, 0, "GHOST", 1, 0, 0, ""⟩

/-- A ledger whose only event dangles: its barcode has no catalog row. -/
def dbGhost : DB := ⟨[], fun _ => ⟨0, 0, 0⟩, [ghostEvent], 2⟩

/-- The manual-count coercion as the specification words it ("coerced to
a non-negative integer, default 0 if absent"), stated only to compare
against the code's actual coercion, which does not clamp at zero. -/
def specManualCoercion (x : Option Int) : Int := max (x.getD 0) 0

/-- Claim C1: for a product with policy AUTO, MANUAL or NONE (unchanged
between the calls), a valid `apply_opening` followed immediately by
`undo_last_entry` restores the product's snapshot to exactly its prior
value and deletes exactly the one event just created. -/
theorem apply_then_undo_restores (db : DB) (d : Nat) (bc : String) (n : Int)
    (ms mk : Option Int) (nt : String) (prod : Product)
    (hfind : findProduct db bc = some prod) (hWF : WF db) (hn : 0 ≤ n)
    (_hpol : prod.split_mode = "AUTO" ∨ prod.split_mode = "MANUAL" ∨
      prod.split_mode = "NONE") :
    (∃ r, (apply_opening db d bc n ms mk nt).1 = Except.ok r) ∧
    (undo_last_entry (apply_opening db d bc n ms mk nt).2).1 =
      Except.ok (true, some ⟨bc, prod.description, (db.stock bc).closed_boxes⟩) ∧
    (undo_last_entry (apply_opening db d bc n ms mk nt).2).2.stock bc = db.stock bc ∧
    (undo_last_entry (apply_opening db d bc n ms mk nt).2).2.open_log = db.open_log := by
  obtain ⟨d0, hd⟩ : ∃ d0, deriveSplit prod.split_mode prod.auto_singles_per_box
      prod.auto_sixpk_per_box n ms mk = d0 := ⟨_, rfl⟩
  have hWF2 : ∀ e ∈ db.open_log, e.id < db.next_id := hWF
  have h1 := apply_opening_ok db d bc n ms mk nt prod d0 hfind hn hd
  have hc := deriveSplit_stored_cancel prod.split_mode prod.auto_singles_per_box
    prod.auto_sixpk_per_box n ms mk
  rw [hd] at hc
  have hmr1 : mostRecent (db.open_log ++
      [(⟨db.next_id, d, bc, n, d0.2.2.1, d0.2.2.2, nt⟩ : OpeningEvent)]) =
      some ⟨db.next_id, d, bc, n, d0.2.2.1, d0.2.2.2, nt⟩ :=
    mostRecent_append db.open_log _ hWF2
  have h2 := undo_last_entry_ok
    { db with
      open_log := db.open_log ++ [⟨db.next_id, d, bc, n, d0.2.2.1, d0.2.2.2, nt⟩],
      next_id := db.next_id + 1,
      stock := fun b => if b = bc then
        ⟨(db.stock bc).closed_boxes - n,
         (db.stock bc).singles + d0.1,
         (db.stock bc).sixpk + d0.2.1⟩ else db.stock b }
    ⟨db.next_id, d, bc, n, d0.2.2.1, d0.2.2.2, nt⟩ prod
    (deriveSplit prod.split_mode prod.auto_singles_per_box prod.auto_sixpk_per_box
      n (some d0.2.2.1) (some d0.2.2.2))
    hmr1 hfind rfl
  have hu2 : undo_last_entry (apply_opening db d bc n ms mk nt).2 =
      (Except.ok (true, some ⟨bc, prod.description,
        ((if bc = bc then
          (⟨(db.stock bc).closed_boxes - n,
            (db.stock bc).singles + d0.1,
            (db.stock bc).sixpk + d0.2.1⟩ : StockSnapshot) else db.stock bc)).closed_boxes + n⟩),
       { db with
         open_log := (db.open_log ++
           [(⟨db.next_id, d, bc, n, d0.2.2.1, d0.2.2.2, nt⟩ : OpeningEvent)]).filter
             (fun e => e.id != db.next_id),
         next_id := db.next_id + 1,
         stock := fun b => if b = bc then
           ⟨((if bc = bc then
              (⟨(db.stock bc).closed_boxes - n,
                (db.stock bc).singles + d0.1,
                (db.stock bc).sixpk + d0.2.1⟩ : StockSnapshot) else db.stock bc)).closed_boxes + n,
             ((if bc = bc then
              (⟨(db.stock bc).closed_boxes - n,
                (db.stock bc).singles + d0.1,
                (db.stock bc).sixpk + d0.2.1⟩ : StockSnapshot) else db.stock bc)).singles -
               (deriveSplit prod.split_mode prod.auto_singles_per_box
                 prod.auto_sixpk_per_box n (some d0.2.2.1) (some d0.2.2.2)).1,
             ((if bc = bc then
              (⟨(db.stock bc).closed_boxes - n,
                (db.stock bc).singles + d0.1,
                (db.stock bc).sixpk + d0.2.1⟩ : StockSnapshot) else db.stock bc)).sixpk -
               (deriveSplit prod.split_mode prod.auto_singles_per_box
                 prod.auto_sixpk_per_box n (some d0.2.2.1) (some d0.2.2.2)).2.1⟩
           else if b = bc then
            (⟨(db.stock bc).closed_boxes - n,
              (db.stock bc).singles + d0.1,
              (db.stock bc).sixpk + d0.2.1⟩ : StockSnapshot) else db.stock b }) := by
    rw [h1]; exact h2
  refine ⟨⟨⟨prod.description, (db.stock bc).closed_boxes - n,
    (db.stock bc).singles + d0.1, (db.stock bc).sixpk + d0.2.1, d0.1, d0.2.1⟩, ?_⟩,
    ?_, ?_, ?_⟩
  · rw [h1]
  · rw [hu2]
    simp only [if_pos rfl]
    simp
  · rw [hu2]
    simp only [if_pos rfl]
    rw [hc.1, hc.2]
    rcases hst : db.stock bc with ⟨c0, s0, k0⟩
    simp [StockSnapshot.mk.injEq]
  · rw [hu2]
    exact filter_append_ne db.open_log
      ⟨db.next_id, d, bc, n, d0.2.2.1, d0.2.2.2, nt⟩ hWF2

/-- Witness for claim C1: P1 (AUTO, multipliers 40/0), prior stock
(10, 0, 0), apply 2 boxes then undo. -/
theorem apply_then_undo_restores_witness :
    (∃ r, (apply_opening dbAuto 0 "P1" 2 none none "").1 = Except.ok r) ∧
    (undo_last_entry (apply_opening dbAuto 0 "P1" 2 none none "").2).1 =
      Except.ok (true, some ⟨"P1", "Cola", 10⟩) ∧
    (undo_last_entry (apply_opening dbAuto 0 "P1" 2 none none "").2).2.stock "P1" =
      dbAuto.stock "P1" ∧
    (undo_last_entry (apply_opening dbAuto 0 "P1" 2 none none "").2).2.open_log = [] := by
  have h := apply_then_undo_restores dbAuto 0 "P1" 2 none none "" prodAuto
    (by decide) (by intro e he; exact absurd he (List.not_mem_nil e)) (by decide)
    (Or.inl rfl)
  refine ⟨h.1, ?_, h.2.2.1, ?_⟩
  · rw [h.2.1]; rfl
  · rw [h.2.2.2]; rfl

/-- Claim C2 counterexample: a product whose stored policy is the
unrecognized string "SPLIT_WEIRD" is processed successfully by
`apply_opening` with zero derived splits (exactly the NONE behaviour),
instead of failing with an InvalidPolicy error. -/
theorem apply_corrupt_policy_counterexample :
    (apply_opening dbCorrupt 0 "PX" 1 none none "").1 =
      Except.ok ⟨"Mystery", 0, 1, 1, 0, 0⟩ ∧
    (apply_opening dbCorrupt 0 "PX" 1 none none "").1 ≠
      Except.error LedgerError.invalidPolicy := by
  have h1 : (apply_opening dbCorrupt 0 "PX" 1 none none "").1 =
      Except.ok ⟨"Mystery", 0, 1, 1, 0, 0⟩ := rfl
  refine ⟨h1, ?_⟩
  rw [h1]
  exact fun hc => Except.noConfusion hc

/-- Claim C2 amended: `apply_opening` treats every policy other than AUTO
and MANUAL exactly like NONE — the call succeeds with zero derived and
stored splits; it never produces an InvalidPolicy error (the three-value
restriction is enforced only by the products table's check constraint). -/
theorem apply_unrecognized_policy_like_none (db : DB) (d : Nat) (bc : String) (n : Int)
    (ms mk : Option Int) (nt : String) (prod : Product)
    (hfind : findProduct db bc = some prod)
    (ha : prod.split_mode ≠ "AUTO") (hm : prod.split_mode ≠ "MANUAL") (hn : 0 ≤ n) :
    (apply_opening db d bc n ms mk nt).1 =
      Except.ok ⟨prod.description, (db.stock bc).closed_boxes - n,
        (db.stock bc).singles, (db.stock bc).sixpk, 0, 0⟩ ∧
    (apply_opening db d bc n ms mk nt).2.open_log =
      db.open_log ++ [⟨db.next_id, d, bc, n, 0, 0, nt⟩] := by
  have hd : deriveSplit prod.split_mode prod.auto_singles_per_box
      prod.auto_sixpk_per_box n ms mk = (0, 0, 0, 0) := by
    unfold deriveSplit
    rw [if_neg ha, if_neg hm]
  rw [apply_opening_ok db d bc n ms mk nt prod (0, 0, 0, 0) hfind hn hd]
  simp

/-- Witness for the amended claim C2 at the corrupt-policy fixture. -/
theorem apply_unrecognized_policy_like_none_witness :
    (apply_opening dbCorrupt 0 "PX" 2 (some 9) (some 9) "x").1 =
      Except.ok ⟨prodCorrupt.description, (dbCorrupt.stock "PX").closed_boxes - 2,
        (dbCorrupt.stock "PX").singles, (dbCorrupt.stock "PX").sixpk, 0, 0⟩ ∧
    (apply_opening dbCorrupt 0 "PX" 2 (some 9) (some 9) "x").2.open_log =
      dbCorrupt.open_log ++ [⟨dbCorrupt.next_id, 0, "PX", 2, 0, 0, "x"⟩] :=
  apply_unrecognized_policy_like_none dbCorrupt 0 "PX" 2 (some 9) (some 9) "x"
    prodCorrupt (by decide) (by decide) (by decide) (by decide)

/-- Claim C3: with the product present and a negative `boxes_opened`, the
`open_log` insert's `boxes_opened >= 0` check makes `apply_opening` fail
with the invalid-input error before any persistent mutation: the state
comes back unchanged, so no event is appended and no snapshot is written. -/
theorem apply_negative_boxes_fails (db : DB) (d : Nat) (bc : String) (n : Int)
    (ms mk : Option Int) (nt : String) (prod : Product)
    (hfind : findProduct db bc = some prod) (hneg : n < 0) :
    apply_opening db d bc n ms mk nt = (Except.error LedgerError.invalidInput, db) :=
  apply_opening_neg db d bc n ms mk nt prod hfind hneg

/-- Witness for claim C3: boxesOpened = -1 on an existing product. -/
theorem apply_negative_boxes_fails_witness :
    apply_opening dbManual 0 "P2" (-1) none none "" =
      (Except.error LedgerError.invalidInput, dbManual) :=
  apply_negative_boxes_fails dbManual 0 "P2" (-1) none none "" prodManual
    (by decide) (by decide)

/-- Claim C4: for a product with policy AUTO and multipliers (s, k),
`apply_opening` derives n×s singles and n×k six-packs while the appended
event stores zeros for both. -/
theorem apply_auto_derivation (db : DB) (d : Nat) (bc : String) (n : Int)
    (ms mk : Option Int) (nt : String) (prod : Product)
    (hfind : findProduct db bc = some prod) (hmode : prod.split_mode = "AUTO")
    (hn : 0 ≤ n) :
    (apply_opening db d bc n ms mk nt).1 =
      Except.ok ⟨prod.description,
        (db.stock bc).closed_boxes - n,
        (db.stock bc).singles + n * prod.auto_singles_per_box,
        (db.stock bc).sixpk + n * prod.auto_sixpk_per_box,
        n * prod.auto_singles_per_box, n * prod.auto_sixpk_per_box⟩ ∧
    (apply_opening db d bc n ms mk nt).2.open_log =
      db.open_log ++ [⟨db.next_id, d, bc, n, 0, 0, nt⟩] := by
  have hd : deriveSplit prod.split_mode prod.auto_singles_per_box
      prod.auto_sixpk_per_box n ms mk
      = (n * prod.auto_singles_per_box, n * prod.auto_sixpk_per_box, 0, 0) := by
    rw [hmode]; rfl
  rw [apply_opening_ok db d bc n ms mk nt prod _ hfind hn hd]
  exact ⟨rfl, rfl⟩

/-- Witness for claim C4: the specification's scenario — P1, AUTO with
multipliers (40, 0), prior stock (10, 0, 0), two boxes opened. -/
theorem apply_auto_derivation_witness :
    (apply_opening dbAuto 0 "P1" 2 (some 0) (some 0) "").1 =
      Except.ok ⟨"Cola", 8, 80, 0, 80, 0⟩ ∧
    (apply_opening dbAuto 0 "P1" 2 (some 0) (some 0) "").2.open_log =
      [⟨1, 0, "P1", 2, 0, 0, ""⟩] := by
  have h := apply_auto_derivation dbAuto 0 "P1" 2 (some 0) (some 0) "" prodAuto
    (by decide) (by decide) (by decide)
  exact ⟨by rw [h.1]; rfl, by rw [h.2]; rfl⟩

/-- Claim C5 counterexample: with policy MANUAL and manualSingles = -5,
`apply_opening` derives and stores -5 itself; the specification's
non-negative coercion of -5 would be 0, so the stored/derived value is
not the coerced one. -/
theorem apply_manual_negative_counterexample :
    (apply_opening dbManual 0 "P2" 1 (some (-5)) (some 1) "").1 =
      Except.ok ⟨"Soda", 4, 5, 3, -5, 1⟩ ∧
    specManualCoercion (some (-5)) = 0 ∧
    ((-5 : Int) ≠ specManualCoercion (some (-5))) :=
  ⟨rfl, rfl, by decide⟩

/-- Claim C5 amended: for MANUAL, derivedSingles/derivedSixpk equal the
manual counts with absence defaulting to 0 — without any clamping to
non-negative — and the appended event stores exactly those values;
reading the most recent event back returns the same values written. -/
theorem apply_manual_roundtrip (db : DB) (d : Nat) (bc : String) (n : Int)
    (ms mk : Option Int) (nt : String) (prod : Product)
    (hfind : findProduct db bc = some prod) (hmode : prod.split_mode = "MANUAL")
    (hn : 0 ≤ n) (hWF : WF db) :
    (apply_opening db d bc n ms mk nt).1 =
      Except.ok ⟨prod.description,
        (db.stock bc).closed_boxes - n,
        (db.stock bc).singles + ms.getD 0,
        (db.stock bc).sixpk + mk.getD 0,
        ms.getD 0, mk.getD 0⟩ ∧
    (apply_opening db d bc n ms mk nt).2.open_log =
      db.open_log ++ [⟨db.next_id, d, bc, n, ms.getD 0, mk.getD 0, nt⟩] ∧
    mostRecent (apply_opening db d bc n ms mk nt).2.open_log =
      some ⟨db.next_id, d, bc, n, ms.getD 0, mk.getD 0, nt⟩ := by
  have hWF2 : ∀ e ∈ db.open_log, e.id < db.next_id := hWF
  have hd : deriveSplit prod.split_mode prod.auto_singles_per_box
      prod.auto_sixpk_per_box n ms mk
      = (ms.getD 0, mk.getD 0, ms.getD 0, mk.getD 0) := by
    rw [hmode]; rfl
  rw [apply_opening_ok db d bc n ms mk nt prod _ hfind hn hd]
  exact ⟨rfl, rfl, mostRecent_append db.open_log _ hWF2⟩

/-- Witness for the amended claim C5: the specification's P2 scenario —
MANUAL, prior stock (5, 10, 2), one box, manual counts 12 and 1. -/
theorem apply_manual_roundtrip_witness :
    (apply_opening dbManual 0 "P2" 1 (some 12) (some 1) "").1 =
      Except.ok ⟨"Soda", 4, 22, 3, 12, 1⟩ ∧
    (apply_opening dbManual 0 "P2" 1 (some 12) (some 1) "").2.open_log =
      [⟨1, 0, "P2", 1, 12, 1, ""⟩] ∧
    mostRecent (apply_opening dbManual 0 "P2" 1 (some 12) (some 1) "").2.open_log =
      some ⟨1, 0, "P2", 1, 12, 1, ""⟩ := by
  have h := apply_manual_roundtrip dbManual 0 "P2" 1 (some 12) (some 1) "" prodManual
    (by decide) (by decide) (by decide)
    (by intro e he; exact absurd he (List.not_mem_nil e))
  exact ⟨by rw [h.1]; rfl, by rw [h.2.1]; rfl, by rw [h.2.2]; rfl⟩

/-- Claim C6 amended: when the most recent event references a barcode
with no catalog entry, `undo_last_entry` returns found=false and leaves
the state untouched — it does not fail with ProductNotFound, and the
outcome is indistinguishable from the empty-log case. -/
theorem undo_dangling_product (db : DB) (e : OpeningEvent)
    (hmr : mostRecent db.open_log = some e)
    (hfind : findProduct db e.barcode = none) :
    undo_last_entry db = (Except.ok (false, none), db) := by
  have hfind2 : db.products.find? (fun p => p.barcode = e.barcode) = none := hfind
  simp [undo_last_entry, findProduct, hmr, hfind2]

/-- Claim C6 counterexample: a ledger whose only event references the
deleted barcode "GHOST": `undo_last_entry` completes with found=false and
no mutation, and does not fail with a ProductNotFound error. -/
theorem undo_dangling_product_counterexample :
    (undo_last_entry dbGhost).1 = Except.ok (false, none) ∧
    (undo_last_entry dbGhost).1 ≠ Except.error LedgerError.productNotFound ∧
    (undo_last_entry dbGhost).2 = dbGhost := by
  have h1 : undo_last_entry dbGhost = (Except.ok (false, none), dbGhost) := rfl
  refine ⟨by rw [h1], ?_, by rw [h1]⟩
  rw [show (undo_last_entry dbGhost).1 = Except.ok (false, none) from by rw [h1]]
  exact fun hc => Except.noConfusion hc

/-- Witness for the amended claim C6 at the dangling-event fixture. -/
theorem undo_dangling_product_witness :
    undo_last_entry dbGhost = (Except.ok (false, none), dbGhost) :=
  undo_dangling_product dbGhost ghostEvent (by decide) (by decide)

/-- Claim C7: for a product with policy NONE, `apply_opening` changes
only the `closed_boxes` field of the product's snapshot (decreasing it by
`boxes_opened`); the `singles` and `sixpk` fields are unchanged. -/
theorem apply_none_frame (db : DB) (d : Nat) (bc : String) (n : Int)
    (ms mk : Option Int) (nt : String) (prod : Product)
    (hfind : findProduct db bc = some prod) (hmode : prod.split_mode = "NONE")
    (hn : 0 ≤ n) :
    ((apply_opening db d bc n ms mk nt).2.stock bc).closed_boxes
        = (db.stock bc).closed_boxes - n ∧
    ((apply_opening db d bc n ms mk nt).2.stock bc).singles = (db.stock bc).singles ∧
    ((apply_opening db d bc n ms mk nt).2.stock bc).sixpk = (db.stock bc).sixpk := by
  have hd : deriveSplit prod.split_mode prod.auto_singles_per_box
      prod.auto_sixpk_per_box n ms mk = (0, 0, 0, 0) := by
    rw [hmode]; rfl
  rw [apply_opening_ok db d bc n ms mk nt prod (0, 0, 0, 0) hfind hn hd]
  simp

/-- Witness for claim C7: P3 (NONE), prior stock (3, 4, 5), two boxes. -/
theorem apply_none_frame_witness :
    ((apply_opening dbNone 0 "P3" 2 none none "").2.stock "P3").closed_boxes
        = (dbNone.stock "P3").closed_boxes - 2 ∧
    ((apply_opening dbNone 0 "P3" 2 none none "").2.stock "P3").singles
        = (dbNone.stock "P3").singles ∧
    ((apply_opening dbNone 0 "P3" 2 none none "").2.stock "P3").sixpk
        = (dbNone.stock "P3").sixpk :=
  apply_none_frame dbNone 0 "P3" 2 none none "" prodNone (by decide) (by decide)
    (by decide)

/-- Claim C8: a successful `apply_opening` computes newClosedBoxes =
closed − boxesOpened, newSingles = singles + derivedSingles, newSixpk =
sixpk + derivedSixpk, and persists exactly those values; no floor at zero
is applied, so nothing prevents closed − boxesOpened from being negative
(the operation still succeeds, as the witness shows). -/
theorem apply_snapshot_formula (db : DB) (d : Nat) (bc : String) (n : Int)
    (ms mk : Option Int) (nt : String) (prod : Product) (d0 : Int × Int × Int × Int)
    (hfind : findProduct db bc = some prod) (hn : 0 ≤ n)
    (hd : deriveSplit prod.split_mode prod.auto_singles_per_box
      prod.auto_sixpk_per_box n ms mk = d0) :
    (apply_opening db d bc n ms mk nt).1 =
      Except.ok ⟨prod.description, (db.stock bc).closed_boxes - n,
        (db.stock bc).singles + d0.1, (db.stock bc).sixpk + d0.2.1, d0.1, d0.2.1⟩ ∧
    (apply_opening db d bc n ms mk nt).2.stock bc =
      ⟨(db.stock bc).closed_boxes - n, (db.stock bc).singles + d0.1,
       (db.stock bc).sixpk + d0.2.1⟩ := by
  rw [apply_opening_ok db d bc n ms mk nt prod d0 hfind hn hd]
  exact ⟨rfl, by simp⟩

/-- Witness for claim C8: opening 9 boxes with only 5 in stock succeeds
and drives the closed-box balance to -4. -/
theorem apply_snapshot_formula_witness :
    (apply_opening dbManual 0 "P2" 9 (some 12) (some 1) "").1 =
      Except.ok ⟨"Soda", -4, 22, 3, 12, 1⟩ ∧
    (apply_opening dbManual 0 "P2" 9 (some 12) (some 1) "").2.stock "P2" =
      ⟨-4, 22, 3⟩ := by
  have h := apply_snapshot_formula dbManual 0 "P2" 9 (some 12) (some 1) "" prodManual
    (12, 1, 12, 1) (by decide) (by decide) (by decide)
  exact ⟨by rw [h.1]; rfl, by rw [h.2]; rfl⟩

/-- Claim C9: with an empty opening-event log, `undo_last_entry` returns
found=false and mutates nothing. -/
theorem undo_empty_log (db : DB) (h : db.open_log = []) :
    undo_last_entry db = (Except.ok (false, none), db) := by
  simp [undo_last_entry, mostRecent, h]

/-- Witness for claim C9 at a fresh ledger. -/
theorem undo_empty_log_witness :
    undo_last_entry dbEmpty = (Except.ok (false, none), dbEmpty) :=
  undo_empty_log dbEmpty rfl

/-- Claim C10: for a product with policy AUTO or NONE, the whole outcome
of `apply_opening` — returned value and resulting state — is independent
of the supplied manual counts. -/
theorem apply_manual_args_irrelevant (db : DB) (d : Nat) (bc : String) (n : Int)
    (ms mk ms2 mk2 : Option Int) (nt : String) (prod : Product)
    (hfind : findProduct db bc = some prod)
    (hmode : prod.split_mode = "AUTO" ∨ prod.split_mode = "NONE") :
    apply_opening db d bc n ms mk nt = apply_opening db d bc n ms2 mk2 nt := by
  have hnm : prod.split_mode ≠ "MANUAL" := by
    rcases hmode with h | h <;> simp [h]
  rcases lt_or_le n 0 with hneg | hn
  · rw [apply_opening_neg db d bc n ms mk nt prod hfind hneg,
      apply_opening_neg db d bc n ms2 mk2 nt prod hfind hneg]
  · rw [apply_opening_ok db d bc n ms mk nt prod _ hfind hn rfl,
      apply_opening_ok db d bc n ms2 mk2 nt prod _ hfind hn rfl,
      deriveSplit_not_manual prod.split_mode prod.auto_singles_per_box
        prod.auto_sixpk_per_box n ms mk ms2 mk2 hnm]

/-- Witness for claim C10: on the AUTO product P1, manual counts (7, 8)
versus (0, 0) give identical results and states. -/
theorem apply_manual_args_irrelevant_witness :
    apply_opening dbAuto 0 "P1" 2 (some 7) (some 8) "" =
      apply_opening dbAuto 0 "P1" 2 (some 0) (some 0) "" :=
  apply_manual_args_irrelevant dbAuto 0 "P1" 2 (some 7) (some 8) (some 0) (some 0) ""
    prodAuto (by decide) (Or.inl rfl)

end StockTracker
